import Mathlib

/-!
# Verification of the EvoTradeWallet WebSocket JSON-RPC gateway

Shallow embedding of `src/main/api/ws.ts`: the per-connection message
handler, the subscription-routing table (`subs`), the per-identity
idle-expiry timers (`connectionMonitors` / `extendSession`), the socket
close handler, and the executor push-event listener.

External collaborators (`isKnownExtension`, `parseOrigin`, `updateOrigin`,
`isTrusted`, `protectedMethods`, `accounts.getSelectedAddresses`) are not
part of this repository slice; they appear as parameters of an `Env`
record, exactly as the handler consumes them.

Transport model: the `ws` library transmits a frame only when the socket's
`readyState` is `OPEN`; `send` on a closing or closed socket transmits
nothing (it only reports an error to the error listener). The handler's
`res` helper additionally checks `readyState === WebSocket.OPEN` itself.
Both are embedded as: a send delivers `some` frame when the socket is
open and `none` otherwise.
-/

set_option autoImplicit false

namespace Gateway

/-- A parsed browser-extension descriptor (`FrameExtension` from
`./origins`); the gateway only reads its `id`. -/
structure FrameExtension where
  id : String
  deriving DecidableEq, Repr

/-- The per-connection socket state the handler reads: the `uuid` assigned
on connect (`socket.id`), the `Origin` request header (`socket.origin`),
the optional extension descriptor (`socket.frameExtension`), and whether
`readyState === WebSocket.OPEN`. -/
structure FrameWebSocket where
  id : String
  origin : Option String
  frameExtension : Option FrameExtension
  isOpen : Bool
  deriving DecidableEq, Repr

/-- The wire request (`ExtensionPayload`): JSON-RPC fields plus the
extension-only `__frameOrigin` / `__extensionConnecting` markers and the
`_origin` identity attached by `updateOrigin`. Absent JSON fields are
`none` / `false`. -/
structure RPCPayload where
  id : Nat
  jsonrpc : String
  method : String
  params : List String
  chainId : Option String
  frameOrigin : Option String
  extensionConnecting : Bool
  _origin : String
  deriving DecidableEq, Repr

/-- A JSON-RPC error object `{ message, code }`. -/
structure ErrorPayload where
  message : String
  code : Int
  deriving DecidableEq, Repr

/-- A response `result` value: the handler produces strings
(`eth_chainId`), numbers (`net_version` via `parseInt`), or `NaN` when
`parseInt` fails. -/
inductive RPCResult where
  | str (s : String)
  | num (n : Nat)
  | nanValue
  deriving DecidableEq, Repr

/-- A response frame `{ id, jsonrpc, result?, error? }` written back to the
client. -/
structure RPCResponsePayload where
  id : Nat
  jsonrpc : String
  result : Option RPCResult
  error : Option ErrorPayload
  deriving DecidableEq, Repr

/-- An executor response as observed by the `provider.send` callback:
`none` embeds a falsy `response`; `result = none` embeds an absent (or
`undefined`) `result` field. JS string truthiness makes `""` falsy, which
the operations test explicitly. -/
structure RPCResponse where
  result : Option String
  deriving DecidableEq, Repr

/-- One entry of the subscription table: `{ originId, socket }`. -/
structure Subscription where
  originId : String
  socket : FrameWebSocket
  deriving DecidableEq, Repr

/-- The module-level subscription table `subs: Record<string, Subscription>`,
embedded as an association list from subscription id to entry (JS object
keys are unique; insertion overwrites). -/
abbrev Subs := List (String × Subscription)

/-- Lookup `subs[k]` by subscription id. -/
def subsLookup (k : String) : Subs → Option Subscription
  | [] => none
  | (k', v) :: rest => if k' = k then some v else subsLookup k rest

/-- Assignment `subs[k] = v` — JS property assignment: overwrites an existing key,
otherwise appends. -/
def subsInsert (k : String) (v : Subscription) : Subs → Subs
  | [] => [(k, v)]
  | (k', v') :: rest =>
      if k' = k then (k, v) :: rest else (k', v') :: subsInsert k v rest

/-- Deletion `delete subs[k]`. -/
def subsDelete (k : String) : Subs → Subs
  | [] => []
  | (k', v') :: rest =>
      if k' = k then subsDelete k rest else (k', v') :: subsDelete k rest

/-- A frame actually transmitted on a socket (socket id, serialized data).
`socket.send(data)` transmits only when the socket is open. -/
def sendFrame (socket : FrameWebSocket) (data : String) :
    Option (String × String) :=
  if socket.isOpen then some (socket.id, data) else none

/-- An asynchronous executor push (`RPC.Susbcription.Response`): the
gateway reads `payload.params.subscription` and forwards the rest
verbatim; `rendered` stands for the JSON text of the remaining fields. -/
structure PushPayload where
  subscription : String
  rendered : String
  deriving DecidableEq, Repr

/-- Serialization (`JSON.stringify`) of a push payload, with the subscription id in
`params.subscription` (shape per the wire protocol). -/
def stringifyPush (p : PushPayload) : String :=
  "\x7b\"jsonrpc\":\"2.0\",\"method\":\"eth_subscription\",\"params\":\x7b\"subscription\":\"" ++
    p.subscription ++ "\",\"result\":" ++ p.rendered ++ "\x7d\x7d"

/-- The `data:subscription` listener (ws.ts lines 173–179): look up
`subs[payload.params.subscription]`; when an owner exists, send the
serialized payload on the owner's socket (transmitted only when that
socket is still open); otherwise do nothing. Returns the transmitted
frame, if any. -/
def routePush (subs : Subs) (payload : PushPayload) :
    Option (String × String) :=
  match subsLookup payload.subscription subs with
  | none => none
  | some subscription => sendFrame subscription.socket (stringifyPush payload)

/-- The unsubscribe payload built by the close handler:
`{ jsonrpc: '2.0', id: 1, method: 'eth_unsubscribe', _origin, params: [sub] }`. -/
def closeUnsubPayload (originId sub : String) : RPCPayload :=
  { id := 1, jsonrpc := "2.0", method := "eth_unsubscribe", params := [sub],
    chainId := none, frameOrigin := none, extensionConnecting := false,
    _origin := originId }

/-- The socket `close` listener (ws.ts lines 153–166): iterate over all
table keys; for every entry whose socket id matches the closed socket,
issue one `eth_unsubscribe` to the executor carrying the entry's
`originId` and the id as its single param, and delete the entry. Returns
the remaining table and the executor calls in iteration order. -/
def onClose (subs : Subs) (socketId : String) : Subs × List RPCPayload :=
  match subs with
  | [] => ([], [])
  | (sub, entry) :: rest =>
      let (rest', calls) := onClose rest socketId
      if entry.socket.id = socketId then
        (rest', closeUnsubPayload entry.originId sub :: calls)
      else
        ((sub, entry) :: rest', calls)

/-- The `provider.send` callback's subscription bookkeeping (ws.ts lines
130–139): only when the response is truthy and carries a truthy `result`,
an `eth_subscribe` registers `subs[response.result] = { socket, originId:
payload._origin }` and an `eth_unsubscribe` deletes each id of
`payload.params` that is present. Every other case leaves the table
unchanged. -/
def handleProviderResponse (method : String) (params : List String)
    (originId : String) (socket : FrameWebSocket) (subs : Subs)
    (response : Option RPCResponse) : Subs :=
  match response with
  | none => subs
  | some resp =>
      match resp.result with
      | none => subs
      | some r =>
          if r = "" then subs
          else if method = "eth_subscribe" then
            subsInsert r { originId := originId, socket := socket } subs
          else if method = "eth_unsubscribe" then
            params.foldl
              (fun s sub =>
                if (subsLookup sub s).isSome then subsDelete sub s else s)
              subs
          else subs

/-- Hex digit test, as in the character class `[0-9A-Fa-f]`. -/
def isHexChar (c : Char) : Bool :=
  c.isDigit || ('a' ≤ c && c ≤ 'f') || ('A' ≤ c && c ≤ 'F')

/-- Predicate `isHexString` from `@ethereumjs/util`: the string matches
`^0x[0-9A-Fa-f]*$`. -/
def isHexString (s : String) : Bool :=
  match s.toList with
  | '0' :: 'x' :: rest => rest.all isHexChar
  | _ => false

/-- Numeric value of a hex digit character. -/
def hexCharVal (c : Char) : Nat :=
  if c.isDigit then c.toNat - '0'.toNat
  else if 'a' ≤ c && c ≤ 'f' then c.toNat - 'a'.toNat + 10
  else c.toNat - 'A'.toNat + 10

/-- JS `parseInt(s, 16)`: skip an optional `0x`/`0X` prefix, read the
longest leading run of hex digits, and return `NaN` when that run is
empty. (The handler only applies it to strings that already passed
`isHexString`, so sign and whitespace handling never matter.) -/
def jsParseIntHex (s : String) : RPCResult :=
  let body :=
    match s.toList with
    | '0' :: 'x' :: rest => rest
    | '0' :: 'X' :: rest => rest
    | chars => chars
  let digits := body.takeWhile isHexChar
  match digits with
  | [] => RPCResult.nanValue
  | _ => RPCResult.num (digits.foldl (fun acc c => 16 * acc + hexCharVal c) 0)

/-- JS template interpolation of `rawPayload.chainId`: an absent field
renders as the text `undefined`. -/
def chainIdText : Option String → String
  | none => "undefined"
  | some s => s

/-- JS truthiness of `accounts.getSelectedAddresses()[0]`: the first
element exists and is a nonempty string. -/
def firstSelectedTruthy : List String → Bool
  | [] => false
  | a :: _ => a ≠ ""

/-- The external collaborators consumed by the handler, exactly at their
call signatures: the known-extensions allow-list, origin parsing, origin /
chain-id resolution (`updateOrigin(rawPayload, origin, connecting)`
returning `{ payload, chainId }`), the trust gate, the protected-methods
list, and the currently selected addresses. -/
structure Env where
  isKnownExtension : FrameExtension → Bool
  parseOrigin : Option String → String
  updateOrigin : RPCPayload → String → Bool → RPCPayload × Option String
  isTrusted : RPCPayload → Bool
  protectedMethods : List String
  selectedAddresses : List String

/-- What one inbound message makes the handler do after session
bookkeeping: drop an unparseable frame (`console.warn`, no response),
call `res` with a response frame, toggle the tray (`frame_summon`), or
forward the payload to the executor via `provider.send`. -/
inductive Effect where
  | dropInvalid
  | respond (frame : RPCResponsePayload)
  | summon
  | forward (payload : RPCPayload)
  deriving DecidableEq, Repr

/-- Outcome of the message listener on one inbound frame: its effect plus
the list of `extendSession` invocations it performed (in order, each
carrying the `payload._origin` argument). -/
structure HandlerOutcome where
  effect : Effect
  extendCalls : List String
  deriving DecidableEq, Repr

/-- The invalid-chain-id error response (ws.ts lines 103–109),
interpolating the raw request's `chainId` field. -/
def invalidChainResponse (rawPayload : RPCPayload) : RPCResponsePayload :=
  { id := rawPayload.id, jsonrpc := rawPayload.jsonrpc, result := none,
    error := some
      { message := "Invalid chain id (" ++ chainIdText rawPayload.chainId ++
          "), chain id must be hex-prefixed string",
        code := -1 } }

/-- The unknown-extension error response (ws.ts lines 75–80). -/
def unknownExtensionResponse (rawPayload : RPCPayload) (ext : FrameExtension) :
    RPCResponsePayload :=
  { id := rawPayload.id, jsonrpc := rawPayload.jsonrpc, result := none,
    error := some
      { message := "Permission denied, approve connection from EvoTrade Companion with id " ++
          ext.id ++ " in Frame to continue",
        code := 4001 } }

/-- The trust gate and forwarding stage (ws.ts lines 124–150): a protected
method whose payload `isTrusted` rejects is answered with a 4001 error —
naming the origin, or, when no account is selected, the no-account
message — and every other payload goes to the executor. -/
def forwardStage (env : Env) (origin : String) (payload : RPCPayload)
    (extendCalls : List String) : HandlerOutcome :=
  if env.protectedMethods.contains payload.method && !env.isTrusted payload then
    let error :=
      if firstSelectedTruthy env.selectedAddresses then
        ({ message := "Permission denied, approve " ++ origin ++
             " in EvoTradeWallet to continue", code := 4001 } : ErrorPayload)
      else
        ({ message := "No EvoTradeWallet account selected", code := 4001 } : ErrorPayload)
    { effect := Effect.respond
        { id := payload.id, jsonrpc := payload.jsonrpc, result := none,
          error := some error },
      extendCalls := extendCalls }
  else
    { effect := Effect.forward payload, extendCalls := extendCalls }

/-- The message pipeline from origin parsing on (ws.ts lines 92–150):
resolve the origin and chain id, reject a non-hex chain id, refresh the
session unless the message is an extension-connecting handshake, serve
the `frame-extension` fast paths (`frame_summon`, `eth_chainId`,
`net_version`), then apply the trust gate / executor forwarding. -/
def afterOriginSwap (env : Env) (rawPayload : RPCPayload)
    (requestOrigin : Option String) : HandlerOutcome :=
  let origin := env.parseOrigin requestOrigin
  let updated := env.updateOrigin rawPayload origin rawPayload.extensionConnecting
  let payload := updated.1
  match updated.2 with
  | none => { effect := Effect.respond (invalidChainResponse rawPayload), extendCalls := [] }
  | some chainId =>
      if !isHexString chainId then
        { effect := Effect.respond (invalidChainResponse rawPayload), extendCalls := [] }
      else
        let extendCalls :=
          if rawPayload.extensionConnecting then [] else [payload._origin]
        if origin = "frame-extension" then
          if rawPayload.method = "frame_summon" then
            { effect := Effect.summon, extendCalls := extendCalls }
          else if rawPayload.method = "eth_chainId" then
            { effect := Effect.respond
                { id := rawPayload.id, jsonrpc := rawPayload.jsonrpc,
                  result := some (RPCResult.str chainId), error := none },
              extendCalls := extendCalls }
          else if rawPayload.method = "net_version" then
            { effect := Effect.respond
                { id := rawPayload.id, jsonrpc := rawPayload.jsonrpc,
                  result := some (jsParseIntHex chainId), error := none },
              extendCalls := extendCalls }
          else forwardStage env origin payload extendCalls
        else forwardStage env origin payload extendCalls

/-- The socket `message` listener (ws.ts lines 68–151) on one inbound
frame. `raw?` is the result of `validPayload` (`none` for an unparseable
frame, which is warned about and dropped). A connection with an extension
descriptor is first checked against the allow-list; a known extension's
message then swaps the request origin to `__frameOrigin` (stripping that
field) or to the `frame-extension` sentinel. -/
def handleMessage (env : Env) (socket : FrameWebSocket)
    (raw? : Option RPCPayload) : HandlerOutcome :=
  match raw? with
  | none => { effect := Effect.dropInvalid, extendCalls := [] }
  | some rawPayload =>
      match socket.frameExtension with
      | some ext =>
          if !env.isKnownExtension ext then
            { effect := Effect.respond (unknownExtensionResponse rawPayload ext),
              extendCalls := [] }
          else
            let requestOrigin :=
              match rawPayload.frameOrigin with
              | some o => some o
              | none => some ("frame-extension")
            afterOriginSwap env { rawPayload with frameOrigin := none } requestOrigin
      | none => afterOriginSwap env rawPayload socket.origin

/-- Control-flow summary of the extension gate / origin swap prefix of the
message listener (ws.ts lines 72–90): `none` when the connection carries
an unknown extension descriptor (the message is answered with the 4001
extension error and goes no further), otherwise the raw payload the rest
of the handler works on (with `__frameOrigin` stripped for extension
traffic) together with the request origin it resolves against.
`handleMessage_resolution` proves the correspondence with
`handleMessage`. -/
def handlerResolution (env : Env) (socket : FrameWebSocket)
    (rawPayload : RPCPayload) : Option (RPCPayload × Option String) :=
  match socket.frameExtension with
  | some ext =>
      if env.isKnownExtension ext then
        some ({ rawPayload with frameOrigin := none },
          match rawPayload.frameOrigin with
          | some o => some o
          | none => some ("frame-extension"))
      else none
  | none => some (rawPayload, socket.origin)

/-- Helper `res` (ws.ts lines 60–66): write a response frame back iff the socket
is still open. -/
def res (socket : FrameWebSocket) (frame : RPCResponsePayload) :
    Option RPCResponsePayload :=
  if socket.isOpen then some frame else none

/-- A pending `setTimeout` handle: its identifier, the identity whose
session it will end (`store.endOriginSession(originId)` on firing), and
its delay in milliseconds. -/
structure PendingTimer where
  handle : Nat
  originId : String
  delayMs : Nat
  deriving DecidableEq, Repr

/-- State of the idle-session machinery: the module-level
`connectionMonitors` map from identity to its latest timeout handle, the
set of scheduled-but-not-yet-fired-or-cancelled timeouts, and a fresh
handle counter. -/
structure SessionState where
  monitors : List (String × Nat)
  live : List PendingTimer
  next : Nat
  deriving DecidableEq, Repr

/-- Lookup `connectionMonitors[originId]`. -/
def monitorsLookup (k : String) : List (String × Nat) → Option Nat
  | [] => none
  | (k', h) :: rest => if k' = k then some h else monitorsLookup k rest

/-- Assignment `connectionMonitors[originId] = handle` (overwrite or append). -/
def monitorsInsert (k : String) (h : Nat) :
    List (String × Nat) → List (String × Nat)
  | [] => [(k, h)]
  | (k', h') :: rest =>
      if k' = k then (k, h) :: rest else (k', h') :: monitorsInsert k h rest

/-- Cancellation `clearTimeout(handle)`: cancel the pending timeout with that handle;
a stale or absent handle (`clearTimeout(undefined)`) is a no-op. -/
def clearTimeoutOpt (h? : Option Nat) (live : List PendingTimer) :
    List PendingTimer :=
  match h? with
  | none => live
  | some h => live.filter (fun t => t.handle ≠ h)

/-- Embedding of `extendSession` (ws.ts lines 45–53): for a truthy identity, cancel the
timeout recorded in `connectionMonitors` for it, then schedule a fresh
60 000 ms timeout that will call `store.endOriginSession(originId)`, and
record the new handle. -/
def extendSession (originId : String) (st : SessionState) : SessionState :=
  if originId = "" then st
  else
    { monitors := monitorsInsert originId st.next st.monitors,
      live := clearTimeoutOpt (monitorsLookup originId st.monitors) st.live ++
        [{ handle := st.next, originId := originId, delayMs := 60 * 1000 }],
      next := st.next + 1 }

/-- Firing the timeout with the given handle: it leaves the live set and
invokes `store.endOriginSession` on its identity (returned as the list of
calls). A cancelled or unknown handle fires nothing. -/
def fireTimer (st : SessionState) (h : Nat) : SessionState × List String :=
  match st.live.find? (fun t => t.handle == h) with
  | none => (st, [])
  | some t =>
      ({ st with live := st.live.filter (fun u => u.handle ≠ h) }, [t.originId])

/-- Number of pending expiry timers for one identity. -/
def countPending (st : SessionState) (originId : String) : Nat :=
  (st.live.filter (fun t => t.originId == originId)).length

/-- Well-formedness of the timer state, as maintained by `extendSession`
from the empty initial state: every live handle is below the counter,
live handles are distinct, and every live timer's handle is the one
recorded in `connectionMonitors` for its identity. -/
def SessionInv (st : SessionState) : Prop :=
  (∀ t ∈ st.live, t.handle < st.next) ∧
  (st.live.map PendingTimer.handle).Nodup ∧
  (∀ t ∈ st.live, monitorsLookup t.originId st.monitors = some t.handle)

/-! ## Concrete instances used by the witnesses -/

/-- A demo open socket `A`. -/
def sockA : FrameWebSocket :=
  { id := "A", origin := some ("https://dapp.example"), frameExtension := none,
    isOpen := true }

/-- A demo open socket `B`. -/
def sockB : FrameWebSocket :=
  { id := "B", origin := some ("https://other.example"), frameExtension := none,
    isOpen := true }

/-- A demo subscription table: `0x1` and `0x3` owned by socket `A`,
`0x2` owned by socket `B`. -/
def demoSubs : Subs :=
  [("0x1", { originId := "https://dapp.example", socket := sockA }),
   ("0x2", { originId := "https://other.example", socket := sockB }),
   ("0x3", { originId := "https://dapp.example", socket := sockA })]

/-- The initial timer state: no monitors, no pending timeouts. -/
def sess0 : SessionState := { monitors := [], live := [], next := 0 }

/-- A demo extension descriptor. -/
def extE : FrameExtension := { id := "abcdefabcdef" }

/-- A demo open extension connection carrying `extE`. -/
def sockE : FrameWebSocket :=
  { id := "E", origin := none, frameExtension := some extE, isOpen := true }

/-- A demo environment: every extension known, `parseOrigin` the identity
on present origins, `updateOrigin` attaching the identity and passing the
request's `chainId` through, a trust gate that accepts, no protected
methods, one selected account. -/
def envW : Env :=
  { isKnownExtension := fun _ => true,
    parseOrigin := fun o =>
      match o with
      | some s => s
      | none => "unknown",
    updateOrigin := fun p o _ => ({ p with _origin := o }, p.chainId),
    isTrusted := fun _ => true,
    protectedMethods := [],
    selectedAddresses := ["0xacc"] }

/-- Demo environment with one protected method and a denying trust gate. -/
def envP : Env :=
  { envW with
    protectedMethods := ["eth_sendTransaction"],
    isTrusted := fun _ => false }

/-- Demo environment like `envP` but with no account selected. -/
def envPnoAcct : Env := { envP with selectedAddresses := [] }

/-- Demo environment whose allow-list rejects every extension. -/
def envU : Env := { envW with isKnownExtension := fun _ => false }

/-- A demo parsed request carrying the non-hex chain id `"1"`. -/
def rawW : RPCPayload :=
  { id := 1, jsonrpc := "2.0", method := "eth_blockNumber", params := [],
    chainId := some ("1"), frameOrigin := none, extensionConnecting := false,
    _origin := "" }

/-- Payload `rawW` with a valid hex chain id. -/
def rawOK : RPCPayload := { rawW with chainId := some ("0x1") }

/-- A demo `eth_chainId` request with chain id `0x1`. -/
def rawC8 : RPCPayload := { rawW with method := "eth_chainId", chainId := some ("0x1") }

/-- A demo protected request (`eth_sendTransaction`) with a valid chain id. -/
def rawP : RPCPayload :=
  { rawW with id := 7, method := "eth_sendTransaction", chainId := some ("0x1") }

end Gateway

namespace Gateway

/-! ## Helper lemmas -/

theorem onClose_fst (subs : Subs) (sid : String) :
    (onClose subs sid).1 = subs.filter (fun e => !(e.2.socket.id == sid)) := by
  induction subs with
  | nil => rfl
  | cons e rest ih =>
      obtain ⟨k, v⟩ := e
      by_cases h : v.socket.id = sid <;>
        simp [onClose, h, List.filter_cons, ih]

theorem onClose_snd (subs : Subs) (sid : String) :
    (onClose subs sid).2 =
      (subs.filter (fun e => e.2.socket.id == sid)).map
        (fun e => closeUnsubPayload e.2.originId e.1) := by
  induction subs with
  | nil => rfl
  | cons e rest ih =>
      obtain ⟨k, v⟩ := e
      by_cases h : v.socket.id = sid <;>
        simp [onClose, h, List.filter_cons, ih]

theorem onClose_count_zero (subs : Subs) (sid k o : String)
    (hk : k ∉ subs.map Prod.fst) :
    (onClose subs sid).2.count (closeUnsubPayload o k) = 0 := by
  induction subs with
  | nil => simp [onClose]
  | cons e rest ih =>
      obtain ⟨k', v'⟩ := e
      simp only [List.map_cons, List.mem_cons] at hk
      push_neg at hk
      obtain ⟨h1, h2⟩ := hk
      have hne : closeUnsubPayload o k ≠ closeUnsubPayload v'.originId k' := by
        intro hcontra
        have hp := congrArg RPCPayload.params hcontra
        simp [closeUnsubPayload] at hp
        exact h1 hp
      by_cases h : v'.socket.id = sid <;>
        simp [onClose, h, List.count_cons, hne, ih h2]

theorem onClose_count_one (subs : Subs) (sid k : String) (v : Subscription)
    (hnd : (subs.map Prod.fst).Nodup) (hmem : (k, v) ∈ subs)
    (hown : v.socket.id = sid) :
    (onClose subs sid).2.count (closeUnsubPayload v.originId k) = 1 := by
  induction subs with
  | nil => cases hmem
  | cons e rest ih =>
      obtain ⟨k', v'⟩ := e
      simp only [List.map_cons, List.nodup_cons] at hnd
      rcases List.mem_cons.mp hmem with heq | hmem'
      · obtain ⟨hk, hv⟩ := Prod.ext_iff.mp heq
        subst hk; subst hv
        have hstep : (onClose ((k, v) :: rest) sid).2 =
            closeUnsubPayload v.originId k :: (onClose rest sid).2 := by
          simp [onClose, hown]
        rw [hstep, List.count_cons]
        simp [onClose_count_zero rest sid k v.originId hnd.1]
      · have hk' : k' ≠ k := by
          intro hkk
          exact hnd.1 (hkk ▸ List.mem_map_of_mem Prod.fst hmem')
        have hne : closeUnsubPayload v.originId k ≠ closeUnsubPayload v'.originId k' := by
          intro hcontra
          have hp := congrArg RPCPayload.params hcontra
          simp [closeUnsubPayload] at hp
          exact hk' hp.symm
        by_cases h : v'.socket.id = sid <;>
          simp [onClose, h, List.count_cons, hne, ih hnd.2 hmem']

theorem subsLookup_delete_self (k : String) (s : Subs) :
    subsLookup k (subsDelete k s) = none := by
  induction s with
  | nil => rfl
  | cons e rest ih =>
      obtain ⟨k', v'⟩ := e
      by_cases h : k' = k <;> simp [subsDelete, subsLookup, h, ih]

theorem subsLookup_delete_other {k k' : String} (h : k' ≠ k) (s : Subs) :
    subsLookup k (subsDelete k' s) = subsLookup k s := by
  induction s with
  | nil => rfl
  | cons e rest ih =>
      obtain ⟨k'', v''⟩ := e
      by_cases h2 : k'' = k'
      · subst h2
        simp [subsDelete, subsLookup, h, ih]
      · by_cases h3 : k'' = k <;>
          simp [subsDelete, subsLookup, h2, h3, ih, Ne.symm h]

/-- One step of the unsubscribe bookkeeping
(`if (subs[sub]) delete subs[sub]`) never makes a key reappear. -/
theorem unsubStep_preserves_none {k : String} (sub : String) (s : Subs)
    (h : subsLookup k s = none) :
    subsLookup k (if (subsLookup sub s).isSome then subsDelete sub s else s) =
      none := by
  by_cases hp : (subsLookup sub s).isSome
  · by_cases hk : sub = k
    · subst hk; simp [hp, subsLookup_delete_self]
    · simp [hp, subsLookup_delete_other hk, h]
  · simp [hp, h]

/-- One step of the unsubscribe bookkeeping removes its own key. -/
theorem unsubStep_removes (sub : String) (s : Subs) :
    subsLookup sub
      (if (subsLookup sub s).isSome then subsDelete sub s else s) = none := by
  by_cases hp : (subsLookup sub s).isSome
  · simp [hp, subsLookup_delete_self]
  · simp at hp
    simp [hp]

theorem unsubFold_preserves_none {k : String} (params : List String) (s : Subs)
    (h : subsLookup k s = none) :
    subsLookup k
      (params.foldl
        (fun s sub => if (subsLookup sub s).isSome then subsDelete sub s else s)
        s) = none := by
  induction params generalizing s with
  | nil => exact h
  | cons q rest ih =>
      exact ih _ (unsubStep_preserves_none q s h)

theorem unsubFold_removes {k : String} (params : List String) (s : Subs)
    (hk : k ∈ params) :
    subsLookup k
      (params.foldl
        (fun s sub => if (subsLookup sub s).isSome then subsDelete sub s else s)
        s) = none := by
  induction params generalizing s with
  | nil => cases hk
  | cons q rest ih =>
      rcases List.mem_cons.mp hk with rfl | hk'
      · exact unsubFold_preserves_none rest _ (unsubStep_removes k s)
      · exact ih _ hk'

theorem monitorsLookup_insert_self (k : String) (h : Nat)
    (m : List (String × Nat)) :
    monitorsLookup k (monitorsInsert k h m) = some h := by
  induction m with
  | nil => simp [monitorsInsert, monitorsLookup]
  | cons e rest ih =>
      obtain ⟨k', h'⟩ := e
      by_cases hk : k' = k <;> simp [monitorsInsert, monitorsLookup, hk, ih]

theorem monitorsLookup_insert_other {k k' : String} (hne : k' ≠ k) (h : Nat)
    (m : List (String × Nat)) :
    monitorsLookup k (monitorsInsert k' h m) = monitorsLookup k m := by
  induction m with
  | nil => simp [monitorsInsert, monitorsLookup, hne]
  | cons e rest ih =>
      obtain ⟨k'', h''⟩ := e
      by_cases h2 : k'' = k'
      · subst h2
        simp [monitorsInsert, monitorsLookup, hne]
      · by_cases h3 : k'' = k <;>
          simp [monitorsInsert, monitorsLookup, h2, h3, ih, Ne.symm hne]

theorem clearTimeout_mem {t : PendingTimer} {h? : Option Nat}
    {live : List PendingTimer} (ht : t ∈ clearTimeoutOpt h? live) :
    t ∈ live := by
  cases h? with
  | none => exact ht
  | some h => exact List.mem_of_mem_filter ht

/-- Under the invariant, clearing the monitored timeout for an identity
leaves no pending timer of that identity at all. -/
theorem clearTimeout_no_origin (st : SessionState) (originId : String)
    (hinv : SessionInv st) :
    ∀ t ∈ clearTimeoutOpt (monitorsLookup originId st.monitors) st.live,
      t.originId ≠ originId := by
  intro t ht heq
  have hmem : t ∈ st.live := clearTimeout_mem ht
  have hlook := hinv.2.2 t hmem
  rw [heq] at hlook
  rw [hlook] at ht
  have := List.of_mem_filter ht
  simp at this

/-- One `extendSession` call from an invariant state: the invariant is
preserved and the identity now has exactly one pending timer — the fresh
60 000 ms one. -/
theorem extendSession_step (st : SessionState) (originId : String)
    (hinv : SessionInv st) (hid : originId ≠ "") :
    SessionInv (extendSession originId st) ∧
    (extendSession originId st).live.filter (fun t => t.originId == originId) =
      [{ handle := st.next, originId := originId, delayMs := 60 * 1000 }] := by
  have hno := clearTimeout_no_origin st originId hinv
  have hlive : (extendSession originId st).live =
      clearTimeoutOpt (monitorsLookup originId st.monitors) st.live ++
        [{ handle := st.next, originId := originId, delayMs := 60 * 1000 }] := by
    simp [extendSession, hid]
  have hmon : (extendSession originId st).monitors =
      monitorsInsert originId st.next st.monitors := by
    simp [extendSession, hid]
  have hnext : (extendSession originId st).next = st.next + 1 := by
    simp [extendSession, hid]
  constructor
  · refine ⟨?_, ?_, ?_⟩
    · intro t ht
      rw [hlive] at ht
      rw [hnext]
      rcases List.mem_append.mp ht with h1 | h1
      · exact Nat.lt_succ_of_lt (hinv.1 t (clearTimeout_mem h1))
      · simp only [List.mem_singleton] at h1
        simp [h1]
    · have hsubl : List.Sublist
          (clearTimeoutOpt (monitorsLookup originId st.monitors) st.live)
          st.live := by
        cases monitorsLookup originId st.monitors with
        | none => exact List.Sublist.refl _
        | some h => exact List.filter_sublist _
      have hnd1 : ((clearTimeoutOpt (monitorsLookup originId st.monitors)
          st.live).map PendingTimer.handle).Nodup :=
        List.Nodup.sublist (List.Sublist.map _ hsubl) hinv.2.1
      have hfresh : st.next ∉ (clearTimeoutOpt
          (monitorsLookup originId st.monitors) st.live).map
            PendingTimer.handle := by
        intro hmem
        obtain ⟨t, ht, hth⟩ := List.mem_map.mp hmem
        have := hinv.1 t (clearTimeout_mem ht)
        omega
      rw [hlive, List.map_append]
      simp [List.nodup_append, hnd1, hfresh]
    · intro t ht
      rw [hlive] at ht
      rw [hmon]
      rcases List.mem_append.mp ht with h1 | h1
      · have hne : t.originId ≠ originId := hno t h1
        rw [monitorsLookup_insert_other (Ne.symm hne)]
        exact hinv.2.2 t (clearTimeout_mem h1)
      · simp only [List.mem_singleton] at h1
        subst h1
        simp [monitorsLookup_insert_self]
  · rw [hlive, List.filter_append]
    have h1 : (clearTimeoutOpt (monitorsLookup originId st.monitors)
        st.live).filter (fun t => t.originId == originId) = [] := by
      rw [List.filter_eq_nil_iff]
      intro t ht
      simpa using hno t ht
    rw [h1]
    simp

/-- Correspondence of `handlerResolution` with `handleMessage`: when the
extension gate passes, the listener continues as `afterOriginSwap` on the
resolved raw payload and request origin. -/
theorem handleMessage_resolution (env : Env) (socket : FrameWebSocket)
    (rawPayload raw2 : RPCPayload) (reqOrigin : Option String)
    (h : handlerResolution env socket rawPayload = some (raw2, reqOrigin)) :
    handleMessage env socket (some rawPayload) =
      afterOriginSwap env raw2 reqOrigin := by
  unfold handlerResolution at h
  unfold handleMessage
  cases hext : socket.frameExtension with
  | none =>
      rw [hext] at h
      simp only [Option.some.injEq, Prod.mk.injEq] at h
      rw [h.1, h.2]
  | some ext =>
      rw [hext] at h
      by_cases hk : env.isKnownExtension ext
      · simp only [hk, if_true, Option.some.injEq, Prod.mk.injEq] at h
        simp only [hk, Bool.not_true, Bool.false_eq_true, if_false]
        rw [h.1, h.2]
      · simp [hk] at h

/-- The resolved raw payload differs from the wire payload only in the
stripped `__frameOrigin` field. -/
theorem handlerResolution_fields (env : Env) (socket : FrameWebSocket)
    (rawPayload raw2 : RPCPayload) (reqOrigin : Option String)
    (h : handlerResolution env socket rawPayload = some (raw2, reqOrigin)) :
    raw2.id = rawPayload.id ∧ raw2.jsonrpc = rawPayload.jsonrpc ∧
    raw2.method = rawPayload.method ∧ raw2.params = rawPayload.params ∧
    raw2.chainId = rawPayload.chainId ∧
    raw2.extensionConnecting = rawPayload.extensionConnecting := by
  unfold handlerResolution at h
  cases hext : socket.frameExtension with
  | none =>
      rw [hext] at h
      simp only [Option.some.injEq, Prod.mk.injEq] at h
      rw [← h.1]
      exact ⟨rfl, rfl, rfl, rfl, rfl, rfl⟩
  | some ext =>
      rw [hext] at h
      by_cases hk : env.isKnownExtension ext
      · simp only [hk, if_true, Option.some.injEq, Prod.mk.injEq] at h
        rw [← h.1]
        exact ⟨rfl, rfl, rfl, rfl, rfl, rfl⟩
      · simp [hk] at h

/-- The trust/forward stage never touches the session bookkeeping. -/
theorem forwardStage_extendCalls (env : Env) (origin : String)
    (payload : RPCPayload) (extendCalls : List String) :
    (forwardStage env origin payload extendCalls).extendCalls = extendCalls := by
  unfold forwardStage
  split <;> rfl

/-! ## Claim theorems -/

/-- C1: when a connection's socket closes, the close handler removes
exactly the subscription-table entries owned by that socket (entries of
other connections survive untouched), and for each removed id it issues
one `eth_unsubscribe` executor call carrying the removed entry's owning
identity as `_origin` and the removed id as the single parameter; with
distinct table keys, exactly one such call per removed id. -/
theorem close_cleans_owned_subscriptions (subs : Subs) (sid : String) :
    (onClose subs sid).1 = subs.filter (fun e => !(e.2.socket.id == sid)) ∧
    (onClose subs sid).2 =
      (subs.filter (fun e => e.2.socket.id == sid)).map
        (fun e => closeUnsubPayload e.2.originId e.1) ∧
    ((subs.map Prod.fst).Nodup →
      ∀ k v, (k, v) ∈ subs → v.socket.id = sid →
        (onClose subs sid).2.count (closeUnsubPayload v.originId k) = 1) :=
  ⟨onClose_fst subs sid, onClose_snd subs sid,
    fun hnd k v hmem hown => onClose_count_one subs sid k v hnd hmem hown⟩

/-- Witness for C1 on the demo table: closing socket `A` keeps exactly
`B`'s entry and issues exactly one unsubscribe for the removed id `0x1`. -/
theorem close_cleans_owned_subscriptions_witness :
    (onClose demoSubs ("A")).1 =
      demoSubs.filter (fun e => !(e.2.socket.id == "A")) ∧
    (onClose demoSubs ("A")).2.count
      (closeUnsubPayload ("https://dapp.example") "0x1") = 1 :=
  ⟨(close_cleans_owned_subscriptions demoSubs ("A")).1,
    (close_cleans_owned_subscriptions demoSubs ("A")).2.2 (by decide) "0x1"
      { originId := "https://dapp.example", socket := sockA }
      (by decide) rfl⟩

/-- C2 counterexample: the claim asserts the entry is gone even when the
executor answers with an error or nothing, but on a falsy response the
callback leaves the table untouched: forwarding `eth_unsubscribe ["0x1"]`
and receiving no result keeps the `0x1` entry registered. -/
theorem unsub_removal_unconditional_counterexample :
    subsLookup ("0x1")
      (handleProviderResponse ("eth_unsubscribe") ["0x1"] "https://dapp.example"
        sockA demoSubs none) =
      some { originId := "https://dapp.example", socket := sockA } := by
  decide

/-- C2 (amended): for a forwarded `eth_unsubscribe`, each id in its
parameter list is removed from the subscription table only when the
executor's response is truthy and carries a truthy `result`; on a falsy
response, an absent `result`, or a falsy `result` the table is unchanged. -/
theorem unsub_removal_gated_on_result (params : List String)
    (originId : String) (socket : FrameWebSocket) (subs : Subs) (r : String)
    (hr : r ≠ "") :
    (∀ sub ∈ params,
      subsLookup sub
        (handleProviderResponse ("eth_unsubscribe") params originId socket subs
          (some { result := some r })) = none) ∧
    handleProviderResponse ("eth_unsubscribe") params originId socket subs
      none = subs ∧
    handleProviderResponse ("eth_unsubscribe") params originId socket subs
      (some { result := none }) = subs ∧
    handleProviderResponse ("eth_unsubscribe") params originId socket subs
      (some { result := some ("") }) = subs := by
  refine ⟨fun sub hsub => ?_, rfl, rfl, by simp [handleProviderResponse]⟩
  simp only [handleProviderResponse, hr, if_false, reduceCtorEq]
  simpa [hr] using unsubFold_removes params subs hsub

/-- Witness for C2 (amended): a truthy result removes `0x1`; an absent
result leaves the demo table unchanged. -/
theorem unsub_removal_gated_on_result_witness :
    subsLookup ("0x1")
      (handleProviderResponse ("eth_unsubscribe") ["0x1"] "https://dapp.example"
        sockA demoSubs (some { result := some ("true") })) = none ∧
    handleProviderResponse ("eth_unsubscribe") ["0x1"] "https://dapp.example"
      sockA demoSubs none = demoSubs := by
  have h := unsub_removal_gated_on_result ["0x1"] "https://dapp.example"
    sockA demoSubs ("true") (by decide)
  exact ⟨h.1 ("0x1") (by decide), h.2.1⟩

/-- C3: an executor push keyed by `payload.params.subscription` with no
owner in the table transmits nothing (and, being a total function,
throws nothing); with an owner it transmits the serialized payload on
the owner's socket exactly when that socket is still open, and
otherwise transmits nothing. -/
theorem push_routing (subs : Subs) (p : PushPayload) :
    (subsLookup p.subscription subs = none → routePush subs p = none) ∧
    (∀ e, subsLookup p.subscription subs = some e →
      routePush subs p =
        if e.socket.isOpen then some (e.socket.id, stringifyPush p) else none) := by
  constructor
  · intro h
    simp [routePush, h]
  · intro e h
    simp [routePush, h, sendFrame]

/-- Witness for C3: the push for registered id `0x2` is delivered,
serialized, on its owner's (open) socket `B`. -/
theorem push_routing_witness :
    routePush demoSubs { subscription := "0x2", rendered := "null" } =
      some ("B", stringifyPush { subscription := "0x2", rendered := "null" }) := by
  have h := (push_routing demoSubs { subscription := "0x2", rendered := "null" }).2
    { originId := "https://other.example", socket := sockB } (by decide)
  simpa [sockB] using h

/-- C10: the unsubscribe path has no ownership check — if any connection's
forwarded `eth_unsubscribe` lists an id owned by a different connection
and the executor's response carries a truthy result, that entry is
deleted, and a subsequent push for the id is silently dropped rather than
delivered to the owner. -/
theorem unsub_ignores_ownership (subs : Subs) (params : List String)
    (requester : FrameWebSocket) (originId : String) (r : String) (hr : r ≠ "")
    (S : String) (hS : S ∈ params) (entry : Subscription)
    (howner : subsLookup S subs = some entry)
    (hother : entry.socket.id ≠ requester.id) (rendered : String) :
    subsLookup S
      (handleProviderResponse ("eth_unsubscribe") params originId requester subs
        (some { result := some r })) = none ∧
    routePush
      (handleProviderResponse ("eth_unsubscribe") params originId requester subs
        (some { result := some r }))
      { subscription := S, rendered := rendered } = none := by
  have hgone : subsLookup S
      (handleProviderResponse ("eth_unsubscribe") params originId requester subs
        (some { result := some r })) = none := by
    simp only [handleProviderResponse, hr, if_false, reduceCtorEq]
    simpa [hr] using unsubFold_removes params subs hS
  exact ⟨hgone, by simp [routePush, hgone]⟩

/-- Witness for C10: socket `A` unsubscribes `0x2`, owned by socket `B`;
on a truthy result the entry is gone and `B` no longer receives pushes
for `0x2`. -/
theorem unsub_ignores_ownership_witness :
    subsLookup ("0x2")
      (handleProviderResponse ("eth_unsubscribe") ["0x2"] "https://dapp.example"
        sockA demoSubs (some { result := some ("true") })) = none ∧
    routePush
      (handleProviderResponse ("eth_unsubscribe") ["0x2"] "https://dapp.example"
        sockA demoSubs (some { result := some ("true") }))
      { subscription := "0x2", rendered := "null" } = none :=
  unsub_ignores_ownership demoSubs ["0x2"] sockA ("https://dapp.example") "true"
    (by decide) "0x2" (by decide)
    { originId := "https://other.example", socket := sockB }
    (by decide) (by decide) "null"

/-- C6: from any state reachable by the session tracker (the invariant),
two consecutive `extendSession` calls for the same truthy identity leave
the invariant intact and exactly one pending expiry timer for that
identity — a 60 000 ms timer which, on firing, invokes
`endOriginSession` on exactly that identity. -/
theorem session_single_timer (st : SessionState) (originId : String)
    (hinv : SessionInv st) (hid : originId ≠ "") :
    SessionInv (extendSession originId (extendSession originId st)) ∧
    countPending (extendSession originId (extendSession originId st))
      originId = 1 ∧
    ∃ h,
      (extendSession originId (extendSession originId st)).live.filter
          (fun t => t.originId == originId) =
        [{ handle := h, originId := originId, delayMs := 60 * 1000 }] ∧
      (fireTimer (extendSession originId (extendSession originId st)) h).2 =
        [originId] := by
  obtain ⟨hinv1, _⟩ := extendSession_step st originId hinv hid
  obtain ⟨hinv2, hfilt2⟩ :=
    extendSession_step (extendSession originId st) originId hinv1 hid
  refine ⟨hinv2, ?_, (extendSession originId st).next, hfilt2, ?_⟩
  · unfold countPending
    rw [hfilt2]
    rfl
  · have ht0mem :
        ({ handle := (extendSession originId st).next, originId := originId,
           delayMs := 60 * 1000 } : PendingTimer) ∈
          (extendSession originId (extendSession originId st)).live := by
      refine List.mem_of_mem_filter (p := fun t => t.originId == originId) ?_
      rw [hfilt2]
      simp
    unfold fireTimer
    cases hfind : (extendSession originId (extendSession originId st)).live.find?
        (fun t => t.handle == (extendSession originId st).next) with
    | none =>
        exfalso
        have := List.find?_eq_none.mp hfind _ ht0mem
        simp at this
    | some u =>
        have hu_mem := List.mem_of_find?_eq_some hfind
        have hu_h : u.handle = (extendSession originId st).next := by
          have := List.find?_some hfind
          simpa using this
        have hu : u =
            { handle := (extendSession originId st).next,
              originId := originId, delayMs := 60 * 1000 } :=
          List.inj_on_of_nodup_map hinv2.2.1 hu_mem ht0mem (by rw [hu_h])
        simp [hu]

/-- C5: a successfully parsed message on a connection whose extension
descriptor the allow-list rejects is answered with an error of code 4001
whose message carries the extension's declared id, with no session
refresh; no Identity is resolved and nothing reaches the executor — the
outcome is identical for every environment agreeing on the allow-list
verdict, whatever its origin parser or trust gate — and the handler
leaves the connection open for later messages. -/
theorem unknown_extension_rejected (env : Env) (socket : FrameWebSocket)
    (rawPayload : RPCPayload) (ext : FrameExtension)
    (hext : socket.frameExtension = some ext)
    (hunknown : env.isKnownExtension ext = false) :
    handleMessage env socket (some rawPayload) =
      { effect := Effect.respond
          { id := rawPayload.id, jsonrpc := rawPayload.jsonrpc, result := none,
            error := some
              { message := "Permission denied, approve connection from EvoTrade Companion with id " ++
                  ext.id ++ " in Frame to continue",
                code := 4001 } },
        extendCalls := [] } ∧
    (∀ env' : Env, env'.isKnownExtension ext = false →
      handleMessage env' socket (some rawPayload) =
        handleMessage env socket (some rawPayload)) := by
  have hmain : ∀ e : Env, e.isKnownExtension ext = false →
      handleMessage e socket (some rawPayload) =
        { effect := Effect.respond
            { id := rawPayload.id, jsonrpc := rawPayload.jsonrpc,
              result := none,
              error := some
                { message := "Permission denied, approve connection from EvoTrade Companion with id " ++
                    ext.id ++ " in Frame to continue",
                  code := 4001 } },
          extendCalls := [] } := by
    intro e he
    simp [handleMessage, hext, he, unknownExtensionResponse]
  exact ⟨hmain env hunknown,
    fun env' h' => (hmain env' h').trans (hmain env hunknown).symm⟩

/-- Witness for C5: an unknown extension connection gets the 4001 error
naming its id `abcdefabcdef`, and nothing else happens. -/
theorem unknown_extension_rejected_witness :
    handleMessage envU sockE (some rawOK) =
      { effect := Effect.respond
          { id := 1, jsonrpc := "2.0", result := none,
            error := some
              { message := "Permission denied, approve connection from EvoTrade Companion with id abcdefabcdef in Frame to continue",
                code := 4001 } },
        extendCalls := [] } := by
  have h := (unknown_extension_rejected envU sockE rawOK extE rfl rfl).1
  rw [h]
  decide

/-- C7: when the resolved chain id is not a hex-prefixed string, the
message is answered with exactly the structured error of code −1 whose
message interpolates the request's `chainId` value, and processing
stops: no session refresh (`extendCalls = []`), no trust check and no
forwarding (the effect is that one response); the connection stays open
for later messages. -/
theorem invalid_chain_rejected (env : Env) (socket : FrameWebSocket)
    (rawPayload raw2 : RPCPayload) (reqOrigin : Option String)
    (hres : handlerResolution env socket rawPayload = some (raw2, reqOrigin))
    (hbad : ∀ c, (env.updateOrigin raw2 (env.parseOrigin reqOrigin)
        raw2.extensionConnecting).2 = some c → isHexString c = false) :
    handleMessage env socket (some rawPayload) =
      { effect := Effect.respond
          { id := rawPayload.id, jsonrpc := rawPayload.jsonrpc, result := none,
            error := some
              { message := "Invalid chain id (" ++
                  chainIdText rawPayload.chainId ++
                  "), chain id must be hex-prefixed string",
                code := -1 } },
        extendCalls := [] } := by
  obtain ⟨hid, hjs, _, _, hch, _⟩ :=
    handlerResolution_fields env socket rawPayload raw2 reqOrigin hres
  rw [handleMessage_resolution env socket rawPayload raw2 reqOrigin hres]
  cases hc : (env.updateOrigin raw2 (env.parseOrigin reqOrigin)
      raw2.extensionConnecting).2 with
  | none => simp [afterOriginSwap, hc, invalidChainResponse, hid, hjs, hch]
  | some c =>
      have hcbad := hbad c hc
      simp [afterOriginSwap, hc, hcbad, invalidChainResponse, hid, hjs, hch]

/-- Witness for C7: a request carrying `chainId: "1"` is answered with
exactly the interpolated code −1 error and nothing else happens. -/
theorem invalid_chain_rejected_witness :
    handleMessage envW sockA (some rawW) =
      { effect := Effect.respond
          { id := 1, jsonrpc := "2.0", result := none,
            error := some
              { message := "Invalid chain id (1), chain id must be hex-prefixed string",
                code := -1 } },
        extendCalls := [] } := by
  have h := invalid_chain_rejected envW sockA rawW rawW
    (some ("https://dapp.example")) rfl
    (by
      intro c hc
      simp [envW, rawW] at hc
      subst hc
      decide)
  rw [h]
  decide

/-- C4: a message that reaches the trust gate (past parsing, the
extension gate, chain-id validation, and the sentinel fast paths) whose
resolved payload has a protected method that `isTrusted` denies is
answered with an error of code 4001 whose message names the resolved
origin — or, when no account is selected, states that instead, still
with code 4001 — and the payload is never forwarded to the executor. -/
theorem trust_denied (env : Env) (socket : FrameWebSocket)
    (rawPayload raw2 payload : RPCPayload) (reqOrigin : Option String)
    (c : String)
    (hres : handlerResolution env socket rawPayload = some (raw2, reqOrigin))
    (hupd : env.updateOrigin raw2 (env.parseOrigin reqOrigin)
      raw2.extensionConnecting = (payload, some c))
    (hhex : isHexString c = true)
    (hfast : env.parseOrigin reqOrigin = "frame-extension" →
      raw2.method ≠ "frame_summon" ∧ raw2.method ≠ "eth_chainId" ∧
        raw2.method ≠ "net_version")
    (hprot : env.protectedMethods.contains payload.method = true)
    (htrust : env.isTrusted payload = false) :
    handleMessage env socket (some rawPayload) =
      { effect := Effect.respond
          { id := payload.id, jsonrpc := payload.jsonrpc, result := none,
            error := some
              { message :=
                  if firstSelectedTruthy env.selectedAddresses then
                    ("Permission denied, approve ") ++
                      env.parseOrigin reqOrigin ++
                      " in EvoTradeWallet to continue"
                  else ("No EvoTradeWallet account selected"),
                code := 4001 } },
        extendCalls :=
          if raw2.extensionConnecting then [] else [payload._origin] } ∧
    (∀ p, (handleMessage env socket (some rawPayload)).effect ≠
      Effect.forward p) := by
  have hmain : handleMessage env socket (some rawPayload) =
      { effect := Effect.respond
          { id := payload.id, jsonrpc := payload.jsonrpc, result := none,
            error := some
              { message :=
                  if firstSelectedTruthy env.selectedAddresses then
                    ("Permission denied, approve ") ++
                      env.parseOrigin reqOrigin ++
                      " in EvoTradeWallet to continue"
                  else ("No EvoTradeWallet account selected"),
                code := 4001 } },
        extendCalls :=
          if raw2.extensionConnecting then [] else [payload._origin] } := by
    rw [handleMessage_resolution env socket rawPayload raw2 reqOrigin hres]
    have hmem : payload.method ∈ env.protectedMethods := by simpa using hprot
    simp only [afterOriginSwap]
    rw [hupd]
    by_cases hsel : firstSelectedTruthy env.selectedAddresses
    · by_cases ho : env.parseOrigin reqOrigin = "frame-extension"
      · obtain ⟨h1, h2, h3⟩ := hfast ho
        simp [hhex, ho, h1, h2, h3, forwardStage, hmem, htrust, hsel]
      · simp [hhex, ho, forwardStage, hmem, htrust, hsel]
    · by_cases ho : env.parseOrigin reqOrigin = "frame-extension"
      · obtain ⟨h1, h2, h3⟩ := hfast ho
        simp [hhex, ho, h1, h2, h3, forwardStage, hmem, htrust, hsel]
      · simp [hhex, ho, forwardStage, hmem, htrust, hsel]
  refine ⟨hmain, fun p hp => ?_⟩
  rw [hmain] at hp
  simp at hp

/-- Witness for C4: a denied `eth_sendTransaction` from a web origin gets
the 4001 permission error naming that origin and is not forwarded. -/
theorem trust_denied_witness :
    handleMessage envP sockA (some rawP) =
      { effect := Effect.respond
          { id := 7, jsonrpc := "2.0", result := none,
            error := some
              { message := "Permission denied, approve https://dapp.example in EvoTradeWallet to continue",
                code := 4001 } },
        extendCalls := ["https://dapp.example"] } := by
  have h := (trust_denied envP sockA rawP rawP
    { rawP with _origin := "https://dapp.example" }
    (some ("https://dapp.example")) "0x1" rfl rfl (by decide)
    (fun ho => absurd ho (by decide)) (by decide) (by decide)).1
  rw [h]
  decide

/-- C8: a message resolving to the `frame-extension` sentinel identity is
served by the fast paths: `frame_summon` toggles the tray and produces no
response frame; `eth_chainId` is answered synchronously with the resolved
chain id; `net_version` is answered synchronously with
`parseInt(chainId, 16)` of the resolved chain id — in each case nothing
is forwarded to the executor and the trust gate is never consulted (the
outcome is invariant under replacing `isTrusted` and the
protected-methods list). -/
theorem sentinel_fast_paths (env : Env) (socket : FrameWebSocket)
    (rawPayload raw2 payload : RPCPayload) (reqOrigin : Option String)
    (c : String)
    (hres : handlerResolution env socket rawPayload = some (raw2, reqOrigin))
    (hupd : env.updateOrigin raw2 (env.parseOrigin reqOrigin)
      raw2.extensionConnecting = (payload, some c))
    (hhex : isHexString c = true)
    (horigin : env.parseOrigin reqOrigin = "frame-extension") :
    (raw2.method = "frame_summon" →
      handleMessage env socket (some rawPayload) =
        { effect := Effect.summon,
          extendCalls :=
            if raw2.extensionConnecting then [] else [payload._origin] }) ∧
    (raw2.method = "eth_chainId" →
      handleMessage env socket (some rawPayload) =
        { effect := Effect.respond
            { id := raw2.id, jsonrpc := raw2.jsonrpc,
              result := some (RPCResult.str c), error := none },
          extendCalls :=
            if raw2.extensionConnecting then [] else [payload._origin] }) ∧
    (raw2.method = "net_version" →
      handleMessage env socket (some rawPayload) =
        { effect := Effect.respond
            { id := raw2.id, jsonrpc := raw2.jsonrpc,
              result := some (jsParseIntHex c), error := none },
          extendCalls :=
            if raw2.extensionConnecting then [] else [payload._origin] }) ∧
    ((raw2.method = "frame_summon" ∨ raw2.method = "eth_chainId" ∨
        raw2.method = "net_version") →
      ∀ tg pm,
        handleMessage { env with isTrusted := tg, protectedMethods := pm }
          socket (some rawPayload) =
          handleMessage env socket (some rawPayload)) := by
  refine ⟨?_, ?_, ?_, ?_⟩
  · intro hm
    rw [handleMessage_resolution env socket rawPayload raw2 reqOrigin hres]
    simp only [afterOriginSwap]
    rw [hupd]
    simp [hhex, horigin, hm]
  · intro hm
    rw [handleMessage_resolution env socket rawPayload raw2 reqOrigin hres]
    simp only [afterOriginSwap]
    rw [hupd]
    simp [hhex, horigin, hm]
  · intro hm
    rw [handleMessage_resolution env socket rawPayload raw2 reqOrigin hres]
    simp only [afterOriginSwap]
    rw [hupd]
    simp [hhex, horigin, hm]
  · intro hm tg pm
    have hres2 : handlerResolution
        { env with isTrusted := tg, protectedMethods := pm } socket
        rawPayload = some (raw2, reqOrigin) := hres
    have hupd2 : ({ env with isTrusted := tg, protectedMethods := pm } :
        Env).updateOrigin raw2
        (({ env with isTrusted := tg, protectedMethods := pm } :
          Env).parseOrigin reqOrigin)
        raw2.extensionConnecting = (payload, some c) := hupd
    rw [handleMessage_resolution _ socket rawPayload raw2 reqOrigin hres2,
      handleMessage_resolution env socket rawPayload raw2 reqOrigin hres]
    simp only [afterOriginSwap]
    simp only [hupd2, hupd]
    rcases hm with hm | hm | hm <;> simp [hhex, horigin, hm]

/-- Witness for C8: `eth_chainId` via the extension sentinel with resolved
chain `0x1` returns `{id, jsonrpc, result: "0x1"}` synchronously. -/
theorem sentinel_fast_paths_witness :
    handleMessage envW sockE (some rawC8) =
      { effect := Effect.respond
          { id := 1, jsonrpc := "2.0", result := some (RPCResult.str ("0x1")),
            error := none },
        extendCalls := ["frame-extension"] } := by
  have h := (sentinel_fast_paths envW sockE rawC8 rawC8
    { rawC8 with _origin := "frame-extension" } (some ("frame-extension"))
    "0x1" (by decide) rfl (by decide) rfl).2.1 rfl
  rw [h]
  decide

/-- C9 (amended): `extendSession` is invoked exactly once — with the
resolved payload's `_origin` — for every successfully parsed message
that passes the extension allow-list gate and chain-id validation and is
not flagged `__extensionConnecting`; unparseable frames,
unknown-extension rejections, invalid-chain-id rejections, and
handshake-flagged messages never refresh the timer. -/
theorem session_refresh_conditions (env : Env) (socket : FrameWebSocket)
    (rawPayload raw2 payload : RPCPayload) (reqOrigin : Option String)
    (c : String) :
    (handleMessage env socket none).extendCalls = [] ∧
    (∀ ext, socket.frameExtension = some ext →
      env.isKnownExtension ext = false →
      (handleMessage env socket (some rawPayload)).extendCalls = []) ∧
    (handlerResolution env socket rawPayload = some (raw2, reqOrigin) →
      (∀ c', (env.updateOrigin raw2 (env.parseOrigin reqOrigin)
          raw2.extensionConnecting).2 = some c' → isHexString c' = false) →
      (handleMessage env socket (some rawPayload)).extendCalls = []) ∧
    (handlerResolution env socket rawPayload = some (raw2, reqOrigin) →
      env.updateOrigin raw2 (env.parseOrigin reqOrigin)
        raw2.extensionConnecting = (payload, some c) →
      isHexString c = true →
      raw2.extensionConnecting = true →
      (handleMessage env socket (some rawPayload)).extendCalls = []) ∧
    (handlerResolution env socket rawPayload = some (raw2, reqOrigin) →
      env.updateOrigin raw2 (env.parseOrigin reqOrigin)
        raw2.extensionConnecting = (payload, some c) →
      isHexString c = true →
      raw2.extensionConnecting = false →
      (handleMessage env socket (some rawPayload)).extendCalls =
        [payload._origin]) := by
  refine ⟨rfl, ?_, ?_, ?_, ?_⟩
  · intro ext hext hunk
    simp [handleMessage, hext, hunk]
  · intro hres hbad
    rw [handleMessage_resolution env socket rawPayload raw2 reqOrigin hres]
    cases hc : (env.updateOrigin raw2 (env.parseOrigin reqOrigin)
        raw2.extensionConnecting).2 with
    | none => simp [afterOriginSwap, hc]
    | some c' => simp [afterOriginSwap, hc, hbad c' hc]
  · intro hres hupd hhex hconn
    rw [handleMessage_resolution env socket rawPayload raw2 reqOrigin hres]
    simp only [afterOriginSwap]
    rw [hupd]
    simp only [hhex, hconn, Bool.not_true, Bool.false_eq_true, if_false,
      if_true]
    split_ifs <;> simp [forwardStage_extendCalls]
  · intro hres hupd hhex hconn
    rw [handleMessage_resolution env socket rawPayload raw2 reqOrigin hres]
    simp only [afterOriginSwap]
    rw [hupd]
    simp only [hhex, hconn, Bool.not_true, Bool.false_eq_true, if_false,
      if_true]
    split_ifs <;> simp [forwardStage_extendCalls]

/-- C9 counterexample: `rawW` parses successfully and is not
handshake-flagged, yet its invalid chain id stops processing before the
session refresh, so the tracker's `extendSession` is never invoked for
it — refuting "exactly once for every successfully parsed non-handshake
message". -/
theorem session_refresh_counterexample :
    rawW.extensionConnecting = false ∧
    (handleMessage envW sockA (some rawW)).extendCalls = [] := by
  decide

/-- Witness for C9 (amended): a fully valid non-handshake message
refreshes the session exactly once, for its resolved identity. -/
theorem session_refresh_conditions_witness :
    (handleMessage envW sockA (some rawOK)).extendCalls =
      ["https://dapp.example"] := by
  have h := (session_refresh_conditions envW sockA rawOK rawOK
    { rawOK with _origin := "https://dapp.example" }
    (some ("https://dapp.example")) "0x1").2.2.2.2 rfl rfl (by decide) rfl
  simpa using h

/-- Witness for C6: two consecutive `extendSession` calls for an identity
from the empty timer state leave exactly one pending timer. -/
theorem session_single_timer_witness :
    countPending
      (extendSession ("https://dapp.example")
        (extendSession ("https://dapp.example") sess0))
      "https://dapp.example" = 1 :=
  (session_single_timer sess0 ("https://dapp.example")
    ⟨by simp [sess0], by simp [sess0], by simp [sess0]⟩ (by decide)).2.1

end Gateway
